import Mathlib

/-!
Verification of the `ajp4py` AJP/1.3 client library (Python) against its
natural-language specification.

The Python source is shallowly embedded:
* Python `bytes` / `BytesIO` buffers become `List Nat` (each element a byte
  value `0..255`); `BytesIO.read k` becomes `List.take k` / `List.drop k`
  (reading past the end returns the available bytes, never an error).
* Python `str` becomes `List Nat` of Unicode code points.
* `struct.pack` / `struct.unpack` become explicit byte arithmetic; fallible
  operations return `Except PyErr`.
* Machine integers are `Nat` / `Int` with explicit wrapping where the format
  codes demand it.
-/

/-- Python exception outcomes relevant to this library, plus `fuelOut` used
only to make the response-parsing loop total (never reached in any theorem
below: every theorem supplies sufficient fuel). -/
inductive PyErr where
  | structError
  | typeError
  | valueError
  | nameError
  | attributeError
  | notImplementedError
  | unicodeEncodeError
  | fuelOut
  deriving DecidableEq, Repr

/-- Unicode code points of a Lean string literal; used to transcribe Python
string constants. -/
def pyStr (s : String) : List Nat :=
  s.data.map Char.toNat

/-- UTF-8 encoding of one Unicode code point (as Python `chr(c).encode('utf8')`
for non-surrogate scalar values). -/
def utf8EncodeChar (c : Nat) : List Nat :=
  if c < 128 then [c]
  else if c < 2048 then [192 + c / 64, 128 + c % 64]
  else if c < 65536 then [224 + c / 4096, 128 + c / 64 % 64, 128 + c % 64]
  else [240 + c / 262144, 128 + c / 4096 % 64, 128 + c / 64 % 64, 128 + c % 64]

/-- UTF-8 encoding of a Python string (`str.encode('utf8')`). -/
def utf8Encode (cs : List Nat) : List Nat :=
  cs.flatMap utf8EncodeChar

/-- Python `str.encode('utf8')` raises `UnicodeEncodeError` on lone
surrogates. -/
def isSurrogate (c : Nat) : Bool :=
  55295 < c && c < 57344

/-- `struct.pack('%ds' % n, bs)`: the `s` format truncates a longer byte
string to exactly `n` bytes and null-pads a shorter one. -/
def packPadTrunc (bs : List Nat) (n : Nat) : List Nat :=
  if n ≤ bs.length then bs.take n else bs ++ List.replicate (n - bs.length) 0

/-- `utils.pack_as_string` (also duplicated verbatim in `models.py`):

    def pack_as_string(string):
        if not string:
            return struct.pack('>h', -1)
        string_len = len(string)
        return struct.pack(
            '>H%dsb' % string_len, string_len, string.encode('utf8'), 0)

`not string` is true for `None` and for the empty string.  `string_len` is
the number of *characters*, while the `%ds` field packs the UTF-8 *bytes*
truncated or padded to that character count.  `struct.pack('>h', -1)` is the
two bytes `0xFF 0xFF`; `'>H'` raises `struct.error` for lengths above
`0xFFFF`. -/
def pack_as_string (string : Option (List Nat)) : Except PyErr (List Nat) :=
  match string with
  | none => .ok [255, 255]
  | some cs =>
    if cs.isEmpty then .ok [255, 255]
    else if cs.any isSurrogate then .error .unicodeEncodeError
    else if 65535 < cs.length then .error .structError
    else
      .ok ([cs.length / 256, cs.length % 256] ++
           packPadTrunc (utf8Encode cs) cs.length ++ [0])

/-- `struct.unpack('>H', buffer.read(2))`: big-endian unsigned 16-bit.
`struct.error` when fewer than 2 bytes are available. -/
def unpackU16 (buf : List Nat) : Except PyErr (Nat × List Nat) :=
  match buf with
  | b0 :: b1 :: rest => .ok (256 * b0 + b1, rest)
  | _ => .error .structError

/-- `struct.unpack('>h', buffer.read(2))`: big-endian signed 16-bit. -/
def unpackI16 (buf : List Nat) : Except PyErr (Int × List Nat) :=
  match buf with
  | b0 :: b1 :: rest =>
    let u := 256 * b0 + b1
    .ok (if 32768 ≤ u then (u : Int) - 65536 else (u : Int), rest)
  | _ => .error .structError

/-- `struct.unpack('b', buffer.read(1))`: signed 8-bit. -/
def unpackI8 (buf : List Nat) : Except PyErr (Int × List Nat) :=
  match buf with
  | b0 :: rest => .ok (if 128 ≤ b0 then (b0 : Int) - 256 else (b0 : Int), rest)
  | _ => .error .structError

/-- `utils.unpack_as_string_length(buffer, length)`:

    def unpack_as_string_length(buffer, length):
        resp_str = unpack_bytes('%ds' % length, buffer)
        buffer.read(1)          # Skip over null-terminator
        return resp_str

The call sites pass either a non-negative int or (from `unpack_as_string`)
the 1-tuple returned by `struct.unpack`; `'%ds' % (n,)` formats to the same
string as `'%ds' % n`, so both are modelled by an `Int` length.  A negative
length yields the format string `'-1s'`, on which `struct.calcsize` raises
`struct.error`.  Reading fewer than `length` bytes also raises
`struct.error` (chunk size mismatch); the terminator skip `read(1)` never
fails. -/
def unpack_as_string_length (buf : List Nat) (length : Int) :
    Except PyErr (List Nat × List Nat) :=
  if length < 0 then .error .structError
  else
    let k := length.toNat
    if (buf.take k).length ≠ k then .error .structError
    else .ok (buf.take k, (buf.drop k).drop 1)

/-- `utils.unpack_as_string` (also duplicated verbatim in `models.py`):

    def unpack_as_string(buffer):
        str_len = unpack_bytes('>h', buffer)
        if not str_len:
            return None
        return unpack_as_string_length(buffer, str_len)

`unpack_bytes` returns the *tuple* `(n,)`, which is non-empty and hence
always truthy, so `if not str_len` never fires: the `None` branch is dead
code and the tuple's value — negative or not — flows into
`unpack_as_string_length`.  The tuple is modelled as the singleton list
`[n]` and the truthiness test as `List.isEmpty`. -/
def unpack_as_string (buf : List Nat) :
    Except PyErr (Option (List Nat) × List Nat) := do
  let (n, buf) ← unpackI16 buf
  let strLenTuple : List Int := [n]
  if strLenTuple.isEmpty then
    return (none, buf)
  else
    let (s, buf) ← unpack_as_string_length buf n
    return (some s, buf)

/-- C1: the string round-trip fails.  Failing input `s = 'é'` (code point
`0xE9`, one character, two UTF-8 bytes): `pack_as_string` packs the
character count `1` as the length and truncates the UTF-8 encoding
`[0xC3, 0xA9]` to the single byte `0xC3`, so decoding yields the byte string
`[0xC3]`, not the UTF-8 bytes of `'é'`.  The empty string also fails: it is
packed as the absent marker `0xFF 0xFF`, on which `unpack_as_string` raises
`struct.error`.  Only the `None` half of the claim holds: `pack_as_string`
of an absent value is exactly the two bytes `0xFF 0xFF`. -/
theorem c1_roundTrip_fails_on_eacute_and_empty :
    pack_as_string (some [233]) = .ok [0, 1, 195, 0] ∧
    unpack_as_string [0, 1, 195, 0] = .ok (some [195], []) ∧
    utf8Encode [233] = [195, 169] ∧
    [195] ≠ utf8Encode [233] ∧
    pack_as_string (some []) = .ok [255, 255] ∧
    unpack_as_string [255, 255] = .error .structError ∧
    pack_as_string none = .ok [255, 255] :=
  ⟨rfl, rfl, rfl, by decide, rfl, rfl, rfl⟩

/-- C6: a buffer whose leading 2-byte signed length is negative does *not*
decode to an absent value: because `struct.unpack` returns a 1-tuple that is
always truthy, the negative value reaches `'%ds' % length` and
`struct.calcsize('-1s')` raises `struct.error`.  Evaluated at the failing
input `b'\xff\xff\x61\x62'` (length field `-1`). -/
theorem c6_negative_length_raises :
    unpack_as_string [255, 255, 97, 98] = .error .structError :=
  rfl

/-- `ajp_types.AjpRequestDirection`. -/
inductive AjpRequestDirection where
  | WEB_SERVER_TO_SERVLET_CONTAINER
  | SERVLET_CONTAINER_TO_WEB_SERVER
  deriving DecidableEq, Repr

/-- `AjpRequestDirection.first_bytes`. -/
def AjpRequestDirection.firstBytes : AjpRequestDirection → Nat × Nat
  | .WEB_SERVER_TO_SERVLET_CONTAINER => (18, 52)
  | .SERVLET_CONTAINER_TO_WEB_SERVER => (65, 66)

/-- `AjpForwardRequest.MAX_REQUEST_LENGTH`: AJP's maximum buffer size for
sending data. -/
def MAX_REQUEST_LENGTH : Nat := 8186

/-- One data-chunk packet of `serialize_data_to_packet`:
`struct.pack('>H', len(data)) + data`, preceded by the header
`struct.pack('>bbH', first_bytes[0], first_bytes[1], len(packet))`.
`len(data) ≤ 8186` at every call site, so both `'>H'` fields are in range
and the pack never fails. -/
def dataChunkPacket (dir : AjpRequestDirection) (data : List Nat) : List Nat :=
  let packet := [data.length / 256, data.length % 256] ++ data
  [dir.firstBytes.1, dir.firstBytes.2, packet.length / 256, packet.length % 256] ++
    packet

/-- The terminating packet of `serialize_data_to_packet`:
`struct.pack('>bbH', first_bytes[0], first_bytes[1], 0x00)`. -/
def termDataPacket (dir : AjpRequestDirection) : List Nat :=
  [dir.firstBytes.1, dir.firstBytes.2, 0, 0]

/-- The `while True` loop of `AjpForwardRequest.serialize_data_to_packet`,
entered with the result of the first `read(MAX_REQUEST_LENGTH)` and the
rest of the stream: yield a chunk packet while the last read was non-empty,
then read again; on an empty read yield the terminator and stop. -/
def serializeDataLoop (dir : AjpRequestDirection) (data rest : List Nat) :
    List (List Nat) :=
  if _hd : data.isEmpty then
    [termDataPacket dir]
  else
    dataChunkPacket dir data ::
      serializeDataLoop dir (rest.take MAX_REQUEST_LENGTH)
        (rest.drop MAX_REQUEST_LENGTH)
termination_by rest.length + data.length
decreasing_by
  simp only [List.length_take, List.length_drop]
  have hdl : 0 < data.length := by
    cases data with
    | nil => simp at _hd
    | cons a l => simp
  omega

/-- `AjpForwardRequest.serialize_data_to_packet`: yields nothing when the
data stream is absent (`if not self._data_stream: return`); otherwise the
stream is read `MAX_REQUEST_LENGTH` bytes at a time. -/
def serialize_data_to_packet (dir : AjpRequestDirection)
    (dataStream : Option (List Nat)) : List (List Nat) :=
  match dataStream with
  | none => []
  | some s =>
    serializeDataLoop dir (s.take MAX_REQUEST_LENGTH) (s.drop MAX_REQUEST_LENGTH)

lemma serializeDataLoop_nil (dir : AjpRequestDirection) (rest : List Nat) :
    serializeDataLoop dir [] rest = [termDataPacket dir] := by
  rw [serializeDataLoop]
  simp

lemma serializeDataLoop_ne (dir : AjpRequestDirection) (data rest : List Nat)
    (h : data ≠ []) :
    serializeDataLoop dir data rest =
      dataChunkPacket dir data ::
        serializeDataLoop dir (rest.take MAX_REQUEST_LENGTH)
          (rest.drop MAX_REQUEST_LENGTH) := by
  rw [serializeDataLoop]
  rw [dif_neg (by simpa using h)]

lemma serializeDataLoop_mem (dir : AjpRequestDirection) :
    ∀ N data rest, rest.length < N → data.length ≤ MAX_REQUEST_LENGTH →
      ∀ p ∈ serializeDataLoop dir data rest,
        p = termDataPacket dir ∨
          ∃ d, d.length ≤ MAX_REQUEST_LENGTH ∧ d ≠ [] ∧ p = dataChunkPacket dir d := by
  intro N
  induction N with
  | zero => intro data rest h; omega
  | succ n ih =>
    intro data rest hrest hdata p hp
    by_cases hd : data = []
    · subst hd
      rw [serializeDataLoop_nil] at hp
      exact Or.inl (List.mem_singleton.mp hp)
    · rw [serializeDataLoop_ne dir data rest hd] at hp
      rcases List.mem_cons.mp hp with hp1 | hp2
      · exact Or.inr ⟨data, hdata, hd, hp1⟩
      · by_cases hz : rest = []
        · subst hz
          rw [List.take_nil, List.drop_nil, serializeDataLoop_nil] at hp2
          exact Or.inl (List.mem_singleton.mp hp2)
        · have hpos : 0 < rest.length := List.length_pos.mpr hz
          refine ih (rest.take MAX_REQUEST_LENGTH) (rest.drop MAX_REQUEST_LENGTH)
            ?_ ?_ p hp2
          · simp only [List.length_drop, MAX_REQUEST_LENGTH] at *
            omega
          · simp only [List.length_take]
            exact Nat.min_le_left _ _

/-- C7: (a) every packet yielded by the Body Chunk Transmitter is either the
zero-length terminator or a chunk packet whose data is at most `8186` bytes;
(b) for a body stream of exactly `20000` bytes the transmitter yields
exactly three chunk packets with data lengths `8186`, `8186` and `3628`,
followed by the terminator packet whose length field is zero and which
carries no payload. -/
theorem c7_chunk_bound_and_20000_split :
    (∀ (dir : AjpRequestDirection) (stream : List Nat) (p : List Nat),
      p ∈ serialize_data_to_packet dir (some stream) →
        p = termDataPacket dir ∨
          ∃ d, d.length ≤ 8186 ∧ d ≠ [] ∧ p = dataChunkPacket dir d) ∧
    (∀ (dir : AjpRequestDirection) (b : Nat),
      serialize_data_to_packet dir (some (List.replicate 20000 b)) =
        [dataChunkPacket dir (List.replicate 8186 b),
         dataChunkPacket dir (List.replicate 8186 b),
         dataChunkPacket dir (List.replicate 3628 b),
         termDataPacket dir]) := by
  constructor
  · intro dir stream p hp
    exact serializeDataLoop_mem dir ((stream.drop MAX_REQUEST_LENGTH).length + 1)
      (stream.take MAX_REQUEST_LENGTH) (stream.drop MAX_REQUEST_LENGTH)
      (Nat.lt_succ_self _)
      (by simp only [List.length_take]; exact Nat.min_le_left _ _) p hp
  · intro dir b
    show serializeDataLoop dir _ _ = _
    have hrep : ∀ k : Nat, k ≠ 0 → List.replicate k b ≠ ([] : List Nat) := by
      intro k hk
      exact List.ne_nil_of_length_pos (by simpa using Nat.pos_of_ne_zero hk)
    rw [List.take_replicate, List.drop_replicate]
    norm_num [MAX_REQUEST_LENGTH]
    rw [serializeDataLoop_ne dir _ _ (hrep 8186 (by norm_num))]
    rw [List.take_replicate, List.drop_replicate]
    norm_num [MAX_REQUEST_LENGTH]
    rw [serializeDataLoop_ne dir _ _ (hrep 8186 (by norm_num))]
    rw [List.take_replicate, List.drop_replicate]
    norm_num [MAX_REQUEST_LENGTH]
    rw [serializeDataLoop_ne dir _ _ (hrep 3628 (by norm_num))]
    rw [List.take_nil, List.drop_nil, serializeDataLoop_nil]

/-- Witness for C7 at a concrete one-byte stream: the terminator packet is a
member of the transmitter's output, and part (a) classifies it. -/
theorem c7_chunk_bound_witness :
    termDataPacket .WEB_SERVER_TO_SERVLET_CONTAINER ∈
      serialize_data_to_packet .WEB_SERVER_TO_SERVLET_CONTAINER (some [7]) ∧
    (termDataPacket .WEB_SERVER_TO_SERVLET_CONTAINER =
        termDataPacket .WEB_SERVER_TO_SERVLET_CONTAINER ∨
      ∃ d, d.length ≤ 8186 ∧ d ≠ [] ∧
        termDataPacket .WEB_SERVER_TO_SERVLET_CONTAINER =
          dataChunkPacket .WEB_SERVER_TO_SERVLET_CONTAINER d) := by
  have hmem : termDataPacket .WEB_SERVER_TO_SERVLET_CONTAINER ∈
      serialize_data_to_packet .WEB_SERVER_TO_SERVLET_CONTAINER (some [7]) := by
    show _ ∈ serializeDataLoop _ _ _
    rw [serializeDataLoop]
    norm_num [MAX_REQUEST_LENGTH]
    rw [serializeDataLoop]
    norm_num
  exact ⟨hmem,
    c7_chunk_bound_and_20000_split.1 .WEB_SERVER_TO_SERVLET_CONTAINER [7] _ hmem⟩

/-- `ajp_types.AjpCommand`: HTTP methods / AJP commands. -/
inductive AjpCommand where
  | OPTIONS | GET | HEAD | POST | PUT | DELETE | TRACE | PROPFIND
  | PROPPATCH | MKCOL | COPY | MOVE | LOCK | UNLOCK | ACL | REPORT
  | VERSION_CONTROL | CHECKIN | CHECKOUT | UNCHECKOUT | SEARCH
  | MKWORKSPACE | UPDATE | LABEL | MERGE | BASELINE_CONTROL | MKACTIVITY
  deriving DecidableEq, Repr

/-- `AjpCommand` integer values. -/
def AjpCommand.val : AjpCommand → Nat
  | .OPTIONS => 1 | .GET => 2 | .HEAD => 3 | .POST => 4 | .PUT => 5
  | .DELETE => 6 | .TRACE => 7 | .PROPFIND => 8 | .PROPPATCH => 9
  | .MKCOL => 10 | .COPY => 11 | .MOVE => 12 | .LOCK => 13 | .UNLOCK => 14
  | .ACL => 15 | .REPORT => 16 | .VERSION_CONTROL => 17 | .CHECKIN => 18
  | .CHECKOUT => 19 | .UNCHECKOUT => 20 | .SEARCH => 21 | .MKWORKSPACE => 22
  | .UPDATE => 23 | .LABEL => 24 | .MERGE => 25 | .BASELINE_CONTROL => 26
  | .MKACTIVITY => 27

/-- `ajp_types.AjpHeader`: well-known request headers. -/
inductive AjpHeader where
  | SC_REQ_ACCEPT | SC_REQ_ACCEPT_CHARSET | SC_REQ_ACCEPT_ENCODING
  | SC_REQ_ACCEPT_LANGUAGE | SC_REQ_AUTHORIZATION | SC_REQ_CONNECTION
  | SC_REQ_CONTENT_TYPE | SC_REQ_CONTENT_LENGTH | SC_REQ_COOKIE
  | SC_REQ_COOKIE2 | SC_REQ_HOST | SC_REQ_PRAGMA | SC_REQ_REFERER
  | SC_REQ_USER_AGENT
  deriving DecidableEq, Repr

/-- `AjpHeader` integer values (`0xA001` .. `0xA00E`). -/
def AjpHeader.val : AjpHeader → Nat
  | .SC_REQ_ACCEPT => 40961 | .SC_REQ_ACCEPT_CHARSET => 40962
  | .SC_REQ_ACCEPT_ENCODING => 40963 | .SC_REQ_ACCEPT_LANGUAGE => 40964
  | .SC_REQ_AUTHORIZATION => 40965 | .SC_REQ_CONNECTION => 40966
  | .SC_REQ_CONTENT_TYPE => 40967 | .SC_REQ_CONTENT_LENGTH => 40968
  | .SC_REQ_COOKIE => 40969 | .SC_REQ_COOKIE2 => 40970
  | .SC_REQ_HOST => 40971 | .SC_REQ_PRAGMA => 40972
  | .SC_REQ_REFERER => 40973 | .SC_REQ_USER_AGENT => 40974

/-- `ajp_types.AjpAttribute`: AJP request attributes (with the reserved
terminator `ARE_DONE`). -/
inductive AjpAttribute where
  | CONTEXT | SERVLET_PATH | REMOTE_USER | AUTH_TYPE | QUERY_STRING
  | ROUTE | SSL_CERT | SSL_CIPHER | SSL_SESSION | REQ_ATTRIBUTE
  | SSL_KEY_SIZE | SECRET | STORED_METHOD | ARE_DONE
  deriving DecidableEq, Repr

/-- `AjpAttribute.code`. -/
def AjpAttribute.code : AjpAttribute → Nat
  | .CONTEXT => 1 | .SERVLET_PATH => 2 | .REMOTE_USER => 3 | .AUTH_TYPE => 4
  | .QUERY_STRING => 5 | .ROUTE => 6 | .SSL_CERT => 7 | .SSL_CIPHER => 8
  | .SSL_SESSION => 9 | .REQ_ATTRIBUTE => 10 | .SSL_KEY_SIZE => 11
  | .SECRET => 12 | .STORED_METHOD => 13 | .ARE_DONE => 255

/-- The dynamically-typed `value` field of the `ATTRIBUTE` namedtuple: a
(possibly absent) string for ordinary attributes, a `(name, value)` pair for
`REQ_ATTRIBUTE`. -/
inductive AttrValue where
  | single (s : Option (List Nat))
  | pair (nm val : Option (List Nat))
  deriving DecidableEq, Repr

/-- `models.ATTRIBUTE = namedtuple('Attribute', 'ajp_attr, value')`. -/
structure ATTRIBUTE where
  ajp_attr : AjpAttribute
  value : AttrValue
  deriving DecidableEq, Repr

/-- One iteration of the loop in `AjpForwardRequest._serialize_attributes`:

    attr_packet += struct.pack('b', attr.ajp_attr.code)
    if attr.ajp_attr == AjpAttribute.REQ_ATTRIBUTE:
        nm, val = attr.value
        attr_packet += pack_as_string(nm)
        attr_packet += pack_as_string(val)
    else:
        attr_packet += pack_as_string(attr.value)

`struct.pack('b', c)` is signed, so a code above `127` (in particular
`ARE_DONE`'s `0xFF`) raises `struct.error`.  Unpacking a non-pair value as
`nm, val` raises `TypeError`; `pack_as_string` of a pair raises
`AttributeError` (a tuple has no `.encode`). -/
def serializeOneAttr (a : ATTRIBUTE) : Except PyErr (List Nat) := do
  if 127 < a.ajp_attr.code then Except.error PyErr.structError
  else
    if a.ajp_attr = AjpAttribute.REQ_ATTRIBUTE then
      match a.value with
      | .pair nm val => do
        let nb ← pack_as_string nm
        let vb ← pack_as_string val
        return a.ajp_attr.code :: (nb ++ vb)
      | .single _ => Except.error PyErr.typeError
    else
      match a.value with
      | .single s => do
        let sb ← pack_as_string s
        return a.ajp_attr.code :: sb
      | .pair _ _ => Except.error PyErr.attributeError

/-- `AjpForwardRequest._serialize_attributes`: the concatenation of one
record per attribute followed by the single terminator byte
`struct.pack('B', AjpAttribute.ARE_DONE.code)` = `0xFF`. -/
def serialize_attributes (attrs : List ATTRIBUTE) : Except PyErr (List Nat) :=
  match attrs with
  | [] => .ok [255]
  | a :: rest => do
    let r ← serializeOneAttr a
    let rs ← serialize_attributes rest
    return r ++ rs

lemma serializeOneAttr_ok (a : ATTRIBUTE) (r : List Nat)
    (h : serializeOneAttr a = .ok r) :
    ∃ tl, r = a.ajp_attr.code :: tl ∧ a.ajp_attr.code ≤ 127 := by
  unfold serializeOneAttr at h
  by_cases hc : 127 < a.ajp_attr.code
  · rw [if_pos hc] at h
    exact absurd h (by simp)
  · rw [if_neg hc] at h
    by_cases hreq : a.ajp_attr = AjpAttribute.REQ_ATTRIBUTE
    · rw [if_pos hreq] at h
      cases hv : a.value with
      | pair nm val =>
        rw [hv] at h
        cases hn : pack_as_string nm with
        | error e => simp [hn, Bind.bind, Except.bind] at h
        | ok nb =>
          cases hvv : pack_as_string val with
          | error e => simp [hn, hvv, Bind.bind, Except.bind] at h
          | ok vb =>
            simp only [hn, hvv, Bind.bind, Except.bind, pure, Except.pure,
              Except.ok.injEq] at h
            exact ⟨nb ++ vb, h.symm, Nat.le_of_not_lt hc⟩
      | single s =>
        rw [hv] at h
        exact absurd h (by simp)
    · rw [if_neg hreq] at h
      cases hv : a.value with
      | single s =>
        rw [hv] at h
        cases hs : pack_as_string s with
        | error e => simp [hs, Bind.bind, Except.bind] at h
        | ok sb =>
          simp only [hs, Bind.bind, Except.bind, pure, Except.pure,
            Except.ok.injEq] at h
          exact ⟨sb, h.symm, Nat.le_of_not_lt hc⟩
      | pair nm val =>
        rw [hv] at h
        exact absurd h (by simp)

/-- C8: for every attribute list that serializes successfully, the result is
the concatenation of one record per attribute followed by exactly one
`0xFF` terminator byte appended at the end, and each record's leading
attribute-code byte differs from `0xFF` (it is at most `0x7F`, since
`struct.pack('b', ...)` would reject anything larger — in particular an
`ARE_DONE` entry cannot serialize at all). -/
theorem c8_attribute_terminator :
    ∀ (attrs : List ATTRIBUTE) (res : List Nat),
      (∀ a ∈ attrs, a.ajp_attr ≠ AjpAttribute.ARE_DONE) →
      serialize_attributes attrs = .ok res →
      ∃ recs : List (List Nat),
        res = recs.flatMap id ++ [255] ∧
        List.Forall₂
          (fun (a : ATTRIBUTE) (r : List Nat) =>
            ∃ tl, r = a.ajp_attr.code :: tl ∧ a.ajp_attr.code ≠ 255)
          attrs recs := by
  intro attrs
  induction attrs with
  | nil =>
    intro res _ h
    refine ⟨[], ?_, List.Forall₂.nil⟩
    simp only [serialize_attributes, Except.ok.injEq] at h
    simp [h.symm]
  | cons a rest ih =>
    intro res hne h
    simp only [serialize_attributes] at h
    cases h1 : serializeOneAttr a with
    | error e => simp [h1, Bind.bind, Except.bind] at h
    | ok r =>
      cases h2 : serialize_attributes rest with
      | error e => simp [h1, h2, Bind.bind, Except.bind] at h
      | ok rs =>
        simp only [h1, h2, Bind.bind, Except.bind, pure, Except.pure,
          Except.ok.injEq] at h
        obtain ⟨recs, hrs, hfa⟩ :=
          ih rs (fun x hx => hne x (List.mem_cons_of_mem a hx)) h2
        obtain ⟨tl, hr, hle⟩ := serializeOneAttr_ok a r h1
        refine ⟨r :: recs, ?_, List.Forall₂.cons ⟨tl, hr, by omega⟩ hfa⟩
        simp [h.symm, hrs]

/-- Witness for C8 at a concrete list: one `QUERY_STRING` attribute. -/
theorem c8_attribute_terminator_witness :
    (∀ a ∈ [ATTRIBUTE.mk AjpAttribute.QUERY_STRING (AttrValue.single (some [97]))],
      a.ajp_attr ≠ AjpAttribute.ARE_DONE) ∧
    serialize_attributes
      [ATTRIBUTE.mk AjpAttribute.QUERY_STRING (AttrValue.single (some [97]))] =
      .ok [5, 0, 1, 97, 0, 255] ∧
    (∃ recs : List (List Nat),
      [5, 0, 1, 97, 0, 255] = recs.flatMap id ++ [255] ∧
      List.Forall₂
        (fun (a : ATTRIBUTE) (r : List Nat) =>
          ∃ tl, r = a.ajp_attr.code :: tl ∧ a.ajp_attr.code ≠ 255)
        [ATTRIBUTE.mk AjpAttribute.QUERY_STRING (AttrValue.single (some [97]))]
        recs) :=
  ⟨by decide, rfl,
    c8_attribute_terminator
      [ATTRIBUTE.mk AjpAttribute.QUERY_STRING (AttrValue.single (some [97]))]
      [5, 0, 1, 97, 0, 255] (by decide) rfl⟩

/-- A key of the `request_headers` dict: either an `AjpHeader` enum member
or a literal header-name string. -/
inductive ReqHdrName where
  | code (h : AjpHeader)
  | name (nm : List Nat)
  deriving DecidableEq, Repr

/-- A value of the `request_headers` dict: a (possibly absent) string, or a
list of strings joined with `','`. -/
inductive ReqHdrVal where
  | vstr (s : Option (List Nat))
  | vlist (l : List (List Nat))
  deriving DecidableEq, Repr

/-- One iteration of the loop in `AjpForwardRequest._serialize_headers`: an
enum key is packed as `struct.pack('BB', value >> 8, value & 0x0F)` (note
the source masks with `0x0F`, not `0xFF`; harmless since every `AjpHeader`
low byte is at most `0x0E`), a string key via `pack_as_string`; a list
value is first `','.join`-ed. -/
def serializeOneHeader (k : ReqHdrName) (v : ReqHdrVal) :
    Except PyErr (List Nat) := do
  let kb ← match k with
    | .code h => Except.ok [h.val / 256, h.val % 16]
    | .name nm => pack_as_string (some nm)
  let vs : Option (List Nat) :=
    match v with
    | .vstr s => s
    | .vlist l => some (List.intercalate (pyStr ",") l)
  let vb ← pack_as_string vs
  return kb ++ vb

/-- The header records of `_serialize_headers`, in dict insertion order. -/
def serializeHeadersList (headers : List (ReqHdrName × ReqHdrVal)) :
    Except PyErr (List Nat) :=
  match headers with
  | [] => .ok []
  | (k, v) :: rest => do
    let r ← serializeOneHeader k v
    let rs ← serializeHeadersList rest
    return r ++ rs

/-- `AjpForwardRequest._serialize_headers`: the header count packed with
`struct.pack('>h', len(...))` (signed, so `struct.error` above `0x7FFF`)
followed by the serialized headers. -/
def serialize_headers (headers : List (ReqHdrName × ReqHdrVal)) :
    Except PyErr (List Nat) := do
  if 32767 < headers.length then Except.error PyErr.structError
  else
    let body ← serializeHeadersList headers
    return [headers.length / 256, headers.length % 256] ++ body

/-- `models.AjpForwardRequest` (construction-time fields). -/
structure AjpForwardRequest where
  direction : AjpRequestDirection := .WEB_SERVER_TO_SERVLET_CONTAINER
  method : Option AjpCommand := none
  protocol : Option (List Nat) := some (pyStr "HTTP/1.1")
  req_uri : Option (List Nat) := none
  remote_addr : Option (List Nat) := none
  remote_host : Option (List Nat) := none
  server_name : Option (List Nat) := none
  server_port : Int := 80
  is_ssl : Bool := false
  request_headers : List (ReqHdrName × ReqHdrVal) := []
  attributes : List ATTRIBUTE := []
  data_stream : Option (List Nat) := none
  deriving Repr

/-- `struct.pack('>h', n)`: big-endian signed 16-bit; `struct.error` outside
`[-32768, 32767]`. -/
def packI16bytes (n : Int) : Except PyErr (List Nat) :=
  if n < -32768 ∨ 32767 < n then .error .structError
  else
    let u := (n % 65536).toNat
    .ok [u / 256, u % 256]

/-- `AjpForwardRequest._serialize_forward_request`: the packet body is the
`FORWARD_REQUEST` type byte and method byte (`struct.pack('bb', ...)`, both
values at most `0x1B` so always in signed-byte range), the five
`pack_as_string` fields, the `'>h'` server port, the `'?'` SSL byte, the
serialized headers and the serialized attributes; the 4-byte packet header
`struct.pack('>bbh', first_bytes[0], first_bytes[1], len(packet))` is
prepended (signed length field: `struct.error` above `0x7FFF`). -/
def serialize_forward_request (r : AjpForwardRequest) :
    Except PyErr (List Nat) := do
  let mval ← match r.method with
    | none => Except.error PyErr.attributeError
    | some m => Except.ok m.val
  let packet := [2, mval]
  let packet := packet ++ (← pack_as_string r.protocol)
  let packet := packet ++ (← pack_as_string r.req_uri)
  let packet := packet ++ (← pack_as_string r.remote_addr)
  let packet := packet ++ (← pack_as_string r.remote_host)
  let packet := packet ++ (← pack_as_string r.server_name)
  let packet := packet ++ (← packI16bytes r.server_port)
  let packet := packet ++ [if r.is_ssl then 1 else 0]
  let packet := packet ++ (← serialize_headers r.request_headers)
  let packet := packet ++ (← serialize_attributes r.attributes)
  if 32767 < packet.length then Except.error PyErr.structError
  else
    return [r.direction.firstBytes.1, r.direction.firstBytes.2,
            packet.length / 256, packet.length % 256] ++ packet

/-- The concrete request of spec scenario B: `GET /index`, default
protocol, no headers, no attributes, no body. -/
def getIndexRequest : AjpForwardRequest :=
  { method := some AjpCommand.GET, req_uri := some (pyStr "/index") }

/-- The serialized bytes of `getIndexRequest`: a 4-byte header whose length
field is `34`, then a 34-byte body. -/
def getIndexBytes : List Nat :=
  [18, 52, 0, 34,
   2, 2,
   0, 8, 72, 84, 84, 80, 47, 49, 46, 49, 0,
   0, 6, 47, 105, 110, 100, 101, 120, 0,
   255, 255, 255, 255, 255, 255,
   0, 80,
   0,
   0, 0,
   255]

lemma bindOk {α β : Type} {x : Except PyErr α} {f : α → Except PyErr β} {b : β}
    (h : x.bind f = .ok b) : ∃ a, x = .ok a ∧ f a = .ok b :=
  match x, h with
  | .ok a, h => ⟨a, rfl, h⟩
  | .error _, h => absurd h (by simp [Except.bind])

/-- C10: (a) for every forward request that serializes successfully, the
16-bit body-length field in bytes 2–3 of the 4-byte packet header equals
the byte count of the body that follows the header; (b) the `GET /index`
request with no headers, no attributes and no body serializes to a packet
whose length field is `34` and whose body (type byte, method byte, five
wire strings, port, SSL byte, `0x0000` header count, `0xFF` attribute
terminator) is exactly `34` bytes. -/
theorem c10_length_field_exact :
    (∀ (r : AjpForwardRequest) (bytes : List Nat),
      serialize_forward_request r = .ok bytes →
        4 ≤ bytes.length ∧
        256 * bytes.getD 2 0 + bytes.getD 3 0 = bytes.length - 4) ∧
    (serialize_forward_request getIndexRequest = .ok getIndexBytes ∧
      getIndexBytes.getD 2 0 = 0 ∧ getIndexBytes.getD 3 0 = 34 ∧
      (getIndexBytes.drop 4).length = 34) := by
  constructor
  · intro r bytes h
    unfold serialize_forward_request at h
    simp only [Bind.bind] at h
    cases hm : r.method with
    | none => rw [hm] at h; simp [Except.bind] at h
    | some m =>
    rw [hm] at h
    obtain ⟨mval, hmv, h⟩ := bindOk h
    obtain ⟨p1, hp1, h⟩ := bindOk h
    obtain ⟨p2, hp2, h⟩ := bindOk h
    obtain ⟨p3, hp3, h⟩ := bindOk h
    obtain ⟨p4, hp4, h⟩ := bindOk h
    obtain ⟨p5, hp5, h⟩ := bindOk h
    obtain ⟨pp, hpp, h⟩ := bindOk h
    obtain ⟨hh, hhh, h⟩ := bindOk h
    obtain ⟨aa, haa, h⟩ := bindOk h
    set packet := [2, mval] ++ p1 ++ p2 ++ p3 ++ p4 ++ p5 ++ pp ++
      [if r.is_ssl then 1 else 0] ++ hh ++ aa with hpk
    by_cases hlen : 32767 < packet.length
    · rw [if_pos hlen] at h
      exact absurd h (by simp)
    · rw [if_neg hlen] at h
      simp only [pure, Except.pure, Except.ok.injEq] at h
      subst h
      refine ⟨by simp, ?_⟩
      simp only [List.cons_append, List.nil_append, List.getD_cons_succ,
        List.getD_cons_zero, List.length_cons]
      omega
  · exact ⟨rfl, rfl, rfl, rfl⟩

/-- Witness for C10 at the concrete `GET /index` request. -/
theorem c10_length_field_exact_witness :
    serialize_forward_request getIndexRequest = .ok getIndexBytes ∧
    (4 ≤ getIndexBytes.length ∧
      256 * getIndexBytes.getD 2 0 + getIndexBytes.getD 3 0 =
        getIndexBytes.length - 4) :=
  ⟨rfl, c10_length_field_exact.1 getIndexRequest getIndexBytes rfl⟩

/-- ASCII-range helpers for Python `str.title()` / `str.upper()`; every
string these are applied to in the source (`AjpSendHeaders` enum names,
`AjpStatus` titles) is pure ASCII. -/
def isAsciiAlphaCp (c : Nat) : Bool :=
  (64 < c && c < 91) || (96 < c && c < 123)

def cpToUpper (c : Nat) : Nat :=
  if 96 < c && c < 123 then c - 32 else c

def cpToLower (c : Nat) : Nat :=
  if 64 < c && c < 91 then c + 32 else c

/-- Python `str.upper()` (ASCII range). -/
def pyUpper (s : List Nat) : List Nat :=
  s.map cpToUpper

/-- Python `str.title()` (ASCII range): the first letter of every
alphabetic run is upper-cased, the rest lower-cased. -/
def pyTitleGo : Bool → List Nat → List Nat
  | _, [] => []
  | prevAlpha, c :: rest =>
    if isAsciiAlphaCp c then
      (if prevAlpha then cpToLower c else cpToUpper c) :: pyTitleGo true rest
    else c :: pyTitleGo false rest

/-- `ajp_types.header_case`: `enum_name.title().replace('_', '-')`. -/
def header_case (enumName : List Nat) : List Nat :=
  (pyTitleGo false enumName).map (fun c => if c = 95 then 45 else c)

/-- `ajp_types.AjpSendHeaders`: the well-known response-header codes
(`0xA001` .. `0xA00B`) mapped to their enum names; `AjpSendHeaders(v)` for
any other value raises `ValueError`, modelled by `none`. -/
def ajpSendHeadersName (v : Nat) : Option (List Nat) :=
  if v = 40961 then some (pyStr "CONTENT_TYPE")
  else if v = 40962 then some (pyStr "CONTENT_LANGUAGE")
  else if v = 40963 then some (pyStr "CONTENT_LENGTH")
  else if v = 40964 then some (pyStr "DATE")
  else if v = 40965 then some (pyStr "LAST_MODIFIED")
  else if v = 40966 then some (pyStr "LOCATION")
  else if v = 40967 then some (pyStr "SET_COOKIE")
  else if v = 40968 then some (pyStr "SET_COOKIE2")
  else if v = 40969 then some (pyStr "SERVLET_ENGINE")
  else if v = 40970 then some (pyStr "STATUS")
  else if v = 40971 then some (pyStr "WWW_AUTHENTICATE")
  else none

/-- `ajp_types._STATUS_BY_CODE`: the status table as (code, title) pairs,
in source order. -/
def _STATUS_BY_CODE : List (Nat × String) :=
  [(100, "Continue"), (101, "Switching Protocols"), (102, "Processing"),
   (200, "OK"), (201, "Created"), (202, "Accepted"),
   (203, "Non-authoritative Information"), (204, "No Content"),
   (205, "Reset Content"), (206, "Partial Content"), (207, "Multi-Status"),
   (208, "Already Reported"), (226, "IM Used"), (300, "Multiple Choices"),
   (301, "Moved Permanently"), (302, "Found"), (303, "See Other"),
   (304, "Not Modified"), (305, "Use Proxy"), (307, "Temporary Redirect"),
   (308, "Permanent Redirect"), (400, "Bad Request"), (401, "Unauthorized"),
   (402, "Payment Required"), (403, "Forbidden"), (404, "Not Found"),
   (405, "Method Not Allowed"), (406, "Not Acceptable"),
   (407, "Proxy Authentication Required"), (408, "Request Timeout"),
   (409, "Conflict"), (410, "Gone"), (411, "Length Required"),
   (412, "Precondition Failed"), (413, "Payload Too Large"),
   (414, "Request-URI Too Long"), (415, "Unsupported Media Type"),
   (416, "Requested Range Not Satisfiable"), (417, "Expectation Failed"),
   (418, "I\x27m a teapot"), (421, "Misdirected Request"),
   (422, "Unprocessable Entity"), (423, "Locked"), (424, "Failed Dependency"),
   (426, "Upgrade Required"), (428, "Precondition Required"),
   (429, "Too Many Requests"), (431, "Request Header Fields Too Large"),
   (444, "Connection Closed Without Response"),
   (451, "Unavailable For Legal Reasons"), (499, "Client Closed Request"),
   (500, "Internal Server Error"), (501, "Not Implemented"),
   (502, "Bad Gateway"), (503, "Service Unavailable"),
   (504, "Gateway Timeout"), (505, "HTTP Version Not Supported"),
   (506, "Variant Also Negotiates"), (507, "Insufficient Storage"),
   (508, "Loop Detected"), (510, "Not Extended"),
   (511, "Network Authentication Required"),
   (599, "Network Connect Timeout Error")]

/-- `ajp_types.lookup_status_by_code`: the table entry for the code, or the
`UNKNOWN = (0, 'Unknown Status')` sentinel when absent. -/
def lookup_status_by_code (c : Nat) : Nat × String :=
  match _STATUS_BY_CODE.find? (fun p => p.1 == c) with
  | some p => p
  | none => (0, "Unknown Status")

/-- `AjpStatus.description`: the status title upper-cased. -/
def statusDescription (p : Nat × String) : List Nat :=
  pyUpper (pyStr p.2)

/-- A response-header dict key: bytes read as a literal name, or the string
produced by `header_case` from the well-known table. -/
inductive HdrKey where
  | raw (nm : List Nat)
  | known (nm : List Nat)
  deriving DecidableEq, Repr

/-- Python dict assignment `d[k] = v`: replace an existing key in place,
else append. -/
def dictSet (d : List (HdrKey × List Nat)) (k : HdrKey) (v : List Nat) :
    List (HdrKey × List Nat) :=
  if d.any (fun p => p.1 == k) then
    d.map (fun p => if p.1 == k then (k, v) else p)
  else d ++ [(k, v)]

/-- The mutable state of `AjpResponse` that `parse` fills in. -/
structure AjpResponseModel where
  status_code : Option Nat := none
  status_msg : Option (List Nat) := none
  response_headers : List (HdrKey × List Nat) := []
  content : List Nat := []
  deriving DecidableEq, Repr

/-- The destructuring `x, = unpack_as_string(buffer)` at every call site in
`parse`: unpacking `None` would raise `TypeError` (that branch is dead, see
`unpack_as_string`). -/
def unpackStrTupled (buf : List Nat) : Except PyErr (List Nat × List Nat) := do
  let (s, buf) ← unpack_as_string buf
  match s with
  | none => .error .typeError
  | some s => .ok (s, buf)

/-- One iteration of the `for _ in range(headers_sz)` loop in
`AjpResponse.parse`: read the leading uint16; strictly below
`AjpSendHeaders.CONTENT_TYPE.value` (= `0xA001`) it is a literal
header-name length, otherwise a well-known header code resolved through
`AjpSendHeaders` (a `ValueError` for values outside the table) and
`header_case`. -/
def readOneHeader (buf : List Nat) :
    Except PyErr ((HdrKey × List Nat) × List Nat) := do
  let (v, buf) ← unpackU16 buf
  if v < 40961 then
    let (nm, buf) ← unpack_as_string_length buf (v : Int)
    let (val, buf) ← unpackStrTupled buf
    return ((.raw nm, val), buf)
  else
    match ajpSendHeadersName v with
    | none => .error .valueError
    | some enm => do
      let (val, buf) ← unpackStrTupled buf
      return ((.known (header_case enm), val), buf)

/-- The `for _ in range(headers_sz)` loop, accumulating the
`response_headers` dict. -/
def readHeadersLoop (count : Nat) (buf : List Nat)
    (d : List (HdrKey × List Nat)) :
    Except PyErr (List (HdrKey × List Nat) × List Nat) :=
  match count with
  | 0 => .ok (d, buf)
  | count + 1 => do
    let (kv, buf) ← readOneHeader buf
    readHeadersLoop count buf (dictSet d kv.1 kv.2)

/-- The `SEND_HEADERS` branch of `AjpResponse.parse`: status code, wire
status message (read and *discarded*), header count, headers; the stored
status message is always `lookup_status_by_code(status_code).description`.
The `response_headers` dict starts empty in each `SEND_HEADERS` packet. -/
def parseSendHeadersBranch (buf : List Nat) (resp : AjpResponseModel) :
    Except PyErr AjpResponseModel := do
  let (status_code, buf) ← unpackU16 buf
  let (_, buf) ← unpackStrTupled buf
  let (headers_sz, buf) ← unpackU16 buf
  let (hdrs, _) ← readHeadersLoop headers_sz buf []
  return { resp with
           response_headers := hdrs,
           status_code := some status_code,
           status_msg := some (statusDescription (lookup_status_by_code status_code)) }

/-- `unpack_bytes('>HHb', BytesIO(_data))` on the 5-byte packet header:
magic, body length, prefix code (signed byte). -/
def unpackHHb (buf : List Nat) : Except PyErr (Nat × Nat × Int) :=
  match buf with
  | m1 :: m2 :: l1 :: l2 :: p :: _ =>
    .ok (256 * m1 + m2, 256 * l1 + l2,
         if 128 ≤ p then (p : Int) - 256 else (p : Int))
  | _ => .error .structError

/-- The `while _prefix_code != AjpPacketHeadersFromContainer.END_RESPONSE`
loop shared by `models.AjpResponse.parse` and `protocol.AjpConnection._parse`.
The two differ in exactly one place: the length passed to the header
`recv`.  `models.py` writes the literal `sock.recv(5)`, embedded as
`hdrLen = some 5`; `protocol.py` writes the bare name
`RESPONSE_HEADER_LENGTH`, which fails to resolve (`hdrLen = none`, raising
`NameError`).  `fuel` only makes the recursion total.

Per iteration: when no response buffer is carried over, read a 5-byte
packet header (`>HHb`), then `recv(_data_len - 1)` for the body
(`ValueError` on a negative count); then dispatch on the prefix code:
`SEND_HEADERS` (4), `SEND_BODY_CHUNK` (3, appending
`_resp_buffer.read(_data_len + 1)` — chunk *plus* its trailing pad byte —
to the content), `END_RESPONSE` (5, reading the reuse flag),
`GET_BODY_CHUNK` (6, reading and discarding a uint16), anything else
`NotImplementedError`.  The buffer is cleared at the end of every
iteration. -/
def parseLoop (hdrLen : Option Nat) (fuel : Nat) (sock : List Nat)
    (prefixCode : Int) (respBuffer : Option (List Nat))
    (resp : AjpResponseModel) : Except PyErr AjpResponseModel :=
  if prefixCode = 5 then .ok resp
  else
    match fuel with
    | 0 => .error .fuelOut
    | Nat.succ fuel =>
      let hdrRead : Except PyErr (List Nat × Int × List Nat) :=
        match respBuffer with
        | some b => .ok (b, prefixCode, sock)
        | none =>
          match hdrLen with
          | none => .error .nameError
          | some k =>
            match unpackHHb (sock.take k) with
            | .error e => .error e
            | .ok (_magic, dataLen, p) =>
              if dataLen = 0 then .error .valueError
              else
                .ok ((sock.drop k).take (dataLen - 1), p,
                     (sock.drop k).drop (dataLen - 1))
      match hdrRead with
      | .error e => .error e
      | .ok (buf, pfx, sock) =>
        if pfx = 4 then
          match parseSendHeadersBranch buf resp with
          | .error e => .error e
          | .ok resp => parseLoop hdrLen fuel sock pfx none resp
        else if pfx = 3 then
          match unpackU16 buf with
          | .error e => .error e
          | .ok (n, buf2) =>
            parseLoop hdrLen fuel sock pfx none
              { resp with content := resp.content ++ buf2.take (n + 1) }
        else if pfx = 5 then
          match unpackI8 buf with
          | .error e => .error e
          | .ok _ => parseLoop hdrLen fuel sock pfx none resp
        else if pfx = 6 then
          match unpackU16 buf with
          | .error e => .error e
          | .ok _ => parseLoop hdrLen fuel sock pfx none resp
        else .error .notImplementedError

/-- `models.AjpResponse.parse` (header reads use the literal `recv(5)`). -/
def AjpResponse_parse (fuel : Nat) (sock : List Nat) (prefixCode : Int := 0)
    (respBuffer : Option (List Nat) := none) : Except PyErr AjpResponseModel :=
  parseLoop (some 5) fuel sock prefixCode respBuffer {}

/-- C2: the `SEND_BODY_CHUNK` branch appends `_data_len + 1` bytes — the
chunk *and* its trailing pad byte — to the accumulated content, so the
decoded body is not the container's body and depends on the chunking.
Failing input: the body `b'ab'` delivered once as a single chunk
(`len=2, 'a','b', pad`) and once as two chunks (`'a'` then `'b'`), each
followed by `END_RESPONSE`; the accumulated contents are `[97, 98, 0]` and
`[97, 0, 98, 0]` — both contain pad bytes, differ from the true body
`[97, 98]`, and differ from each other, refuting chunking invariance. -/
theorem c2_pad_byte_in_content :
    Except.map AjpResponseModel.content
      (AjpResponse_parse 10
        [65, 66, 0, 6, 3, 0, 2, 97, 98, 0,
         65, 66, 0, 2, 5, 1]) = .ok [97, 98, 0] ∧
    Except.map AjpResponseModel.content
      (AjpResponse_parse 10
        [65, 66, 0, 5, 3, 0, 1, 97, 0,
         65, 66, 0, 5, 3, 0, 1, 98, 0,
         65, 66, 0, 2, 5, 1]) = .ok [97, 0, 98, 0] ∧
    ([97, 98, 0] : List Nat) ≠ [97, 0, 98, 0] ∧
    ([97, 98, 0] : List Nat) ≠ [97, 98] ∧
    ([97, 0, 98, 0] : List Nat) ≠ [97, 98] :=
  ⟨rfl, rfl, by decide, by decide, by decide⟩

lemma unpackU16_cons (a b : Nat) (X : List Nat) :
    unpackU16 ([a, b] ++ X) = .ok (256 * a + b, X) := by
  simp [unpackU16]

lemma unpackU16_be (c : Nat) (X : List Nat) :
    unpackU16 ([c / 256, c % 256] ++ X) = .ok (c, X) := by
  rw [unpackU16_cons]
  congr 1
  congr 1
  omega

lemma unpack_as_string_length_exact (nm Y : List Nat) :
    unpack_as_string_length (nm ++ ([0] ++ Y)) (nm.length : Int) = .ok (nm, Y) := by
  unfold unpack_as_string_length
  rw [if_neg (by omega)]
  simp only [Int.toNat_natCast]
  rw [List.take_left' rfl, List.drop_left' rfl]
  simp

lemma unpack_packedString (ms Y : List Nat) (h : ms.length < 32768) :
    unpack_as_string
      ([ms.length / 256, ms.length % 256] ++ (ms ++ ([0] ++ Y))) =
      .ok (some ms, Y) := by
  unfold unpack_as_string
  have h16 : unpackI16 ([ms.length / 256, ms.length % 256] ++ (ms ++ ([0] ++ Y))) =
      .ok ((ms.length : Int), ms ++ ([0] ++ Y)) := by
    simp only [unpackI16, List.cons_append, List.nil_append]
    rw [show 256 * (ms.length / 256) + ms.length % 256 = ms.length by omega]
    rw [if_neg (by omega)]
  rw [h16]
  simp only [Bind.bind, Except.bind, List.isEmpty_cons, Bool.false_eq_true,
    if_false]
  rw [unpack_as_string_length_exact ms Y]
  simp [pure, Except.pure]

lemma unpackStrTupled_packed (ms Y : List Nat) (h : ms.length < 32768) :
    unpackStrTupled
      ([ms.length / 256, ms.length % 256] ++ (ms ++ ([0] ++ Y))) =
      .ok (ms, Y) := by
  unfold unpackStrTupled
  rw [unpack_packedString ms Y h]
  simp [Bind.bind, Except.bind]

/-- C5: the `SEND_HEADERS` decoder stores
`lookup_status_by_code(status_code).description` as the status message for
*every* wire status message `ms` — the table is consulted first and the wire
message never influences the result; a code in the table yields that
entry's (upper-cased) description, and an unknown code such as `999` yields
the `(0, 'Unknown Status')` sentinel's description without failing. -/
theorem c5_status_description_from_table :
    (∀ (c : Nat) (ms rest : List Nat) (resp : AjpResponseModel),
      c < 65536 → ms.length < 32768 →
      parseSendHeadersBranch
        ([c / 256, c % 256] ++
          ([ms.length / 256, ms.length % 256] ++ (ms ++ ([0] ++ ([0, 0] ++ rest)))))
        resp =
        .ok { resp with
              response_headers := [],
              status_code := some c,
              status_msg := some (statusDescription (lookup_status_by_code c)) }) ∧
    lookup_status_by_code 200 = (200, "OK") ∧
    lookup_status_by_code 999 = (0, "Unknown Status") ∧
    statusDescription (lookup_status_by_code 999) = pyStr "UNKNOWN STATUS" ∧
    statusDescription (lookup_status_by_code 200) = pyStr "OK" := by
  refine ⟨?_, rfl, rfl, by decide, by decide⟩
  intro c ms rest resp _hc hms
  unfold parseSendHeadersBranch
  rw [unpackU16_be c _]
  simp only [Bind.bind, Except.bind]
  rw [unpackStrTupled_packed ms ([0, 0] ++ rest) hms]
  simp [unpackU16, readHeadersLoop, pure, Except.pure]

/-- Witness for C5: status code `999` (not in the table) with the wire
message `'Moved'`; the stored message is the sentinel's description
`'UNKNOWN STATUS'`, not the wire message. -/
theorem c5_status_description_witness :
    (999 : Nat) < 65536 ∧ (pyStr "Moved").length < 32768 ∧
    parseSendHeadersBranch
      ([999 / 256, 999 % 256] ++
        ([(pyStr "Moved").length / 256, (pyStr "Moved").length % 256] ++
          (pyStr "Moved" ++ ([0] ++ ([0, 0] ++ [])))))
      {} =
      .ok { response_headers := [],
            status_code := some 999,
            status_msg := some (statusDescription (lookup_status_by_code 999)) } :=
  ⟨by decide, by decide,
    c5_status_description_from_table.1 999 (pyStr "Moved") [] {} (by decide) (by decide)⟩

lemma ajpSendHeadersName_ge (v : Nat) (enm : List Nat)
    (h : ajpSendHeadersName v = some enm) : 40961 ≤ v := by
  by_contra hlt
  push_neg at hlt
  have hne : ∀ w, 40960 < w → v ≠ w := by omega
  have hnone : ajpSendHeadersName v = none := by
    unfold ajpSendHeadersName
    rw [if_neg (hne 40961 (by norm_num)), if_neg (hne 40962 (by norm_num)),
        if_neg (hne 40963 (by norm_num)), if_neg (hne 40964 (by norm_num)),
        if_neg (hne 40965 (by norm_num)), if_neg (hne 40966 (by norm_num)),
        if_neg (hne 40967 (by norm_num)), if_neg (hne 40968 (by norm_num)),
        if_neg (hne 40969 (by norm_num)), if_neg (hne 40970 (by norm_num)),
        if_neg (hne 40971 (by norm_num))]
  rw [hnone] at h
  exact absurd h (by simp)

/-- C9: the response-header discriminator compares the leading uint16
against `AjpSendHeaders.CONTENT_TYPE.value` = `0xA001`, the lowest
well-known code: (a) any value strictly below it (in particular `0xA000`)
is treated as a literal header-name length and exactly that many bytes are
read as the name; (b) any value with a table entry (in particular `0xA001`,
whose entry is `CONTENT_TYPE`, rendered `Content-Type` by `header_case`)
is decoded through the well-known table; `0xA000` has no table entry. -/
theorem c9_header_code_boundary :
    (∀ (v : Nat) (nm val rest : List Nat),
      v < 40961 → nm.length = v → val.length < 32768 →
      readOneHeader ([v / 256, v % 256] ++ (nm ++ ([0] ++
          ([val.length / 256, val.length % 256] ++ (val ++ ([0] ++ rest)))))) =
        .ok ((.raw nm, val), rest)) ∧
    (∀ (v : Nat) (enm val rest : List Nat),
      ajpSendHeadersName v = some enm → val.length < 32768 →
      readOneHeader ([v / 256, v % 256] ++
          ([val.length / 256, val.length % 256] ++ (val ++ ([0] ++ rest)))) =
        .ok ((.known (header_case enm), val), rest)) ∧
    ajpSendHeadersName 40961 = some (pyStr "CONTENT_TYPE") ∧
    header_case (pyStr "CONTENT_TYPE") = pyStr "Content-Type" ∧
    ajpSendHeadersName 40960 = none := by
  refine ⟨?_, ?_, rfl, by decide, rfl⟩
  · intro v nm val rest hv hnm hval
    subst hnm
    unfold readOneHeader
    rw [unpackU16_be nm.length _]
    simp only [Bind.bind, Except.bind]
    rw [if_pos hv]
    rw [unpack_as_string_length_exact nm _]
    simp only []
    rw [unpackStrTupled_packed val rest hval]
    simp [pure, Except.pure]
  · intro v enm val rest hv hval
    have hge : 40961 ≤ v := ajpSendHeadersName_ge v enm hv
    unfold readOneHeader
    rw [unpackU16_be v _]
    simp only [Bind.bind, Except.bind]
    rw [if_neg (by omega)]
    rw [hv]
    simp only []
    rw [unpackStrTupled_packed val rest hval]
    simp [pure, Except.pure]

/-- Witness for C9: part (a) at a literal-length name of 3 bytes (`abc`),
and part (b) at `0xA001` (`Content-Type`). -/
theorem c9_header_code_boundary_witness :
    ((3 : Nat) < 40961 ∧ ([97, 98, 99] : List Nat).length = 3 ∧
      ([120] : List Nat).length < 32768 ∧
      readOneHeader ([3 / 256, 3 % 256] ++ ([97, 98, 99] ++ ([0] ++
          ([([120] : List Nat).length / 256, ([120] : List Nat).length % 256] ++
            ([120] ++ ([0] ++ [])))))) =
        .ok ((.raw [97, 98, 99], [120]), [])) ∧
    (ajpSendHeadersName 40961 = some (pyStr "CONTENT_TYPE") ∧
      readOneHeader ([40961 / 256, 40961 % 256] ++
          ([([120] : List Nat).length / 256, ([120] : List Nat).length % 256] ++
            ([120] ++ ([0] ++ [])))) =
        .ok ((.known (header_case (pyStr "CONTENT_TYPE")), [120]), [])) :=
  ⟨⟨by decide, by decide, by decide,
    c9_header_code_boundary.1 3 [97, 98, 99] [120] []
      (by decide) (by decide) (by decide)⟩,
   ⟨rfl,
    c9_header_code_boundary.2.1 40961 (pyStr "CONTENT_TYPE") [120] [] rfl
      (by decide)⟩⟩

/-- A representative set of Python builtin names (the full builtin namespace
contains no `RESPONSE_HEADER_LENGTH` either). -/
def pythonBuiltinNames : List String :=
  ["len", "range", "isinstance", "setattr", "getattr", "str", "int",
   "bytes", "bytearray", "list", "dict", "tuple", "type", "print",
   "format", "Exception", "NotImplementedError"]

/-- The module-level bindings of `protocol.py`: its imports (`socket`,
`BytesIO`, the logger, the `ajp_types` / `models` / `utils` names) and the
`AjpConnection` class itself.  `RESPONSE_HEADER_LENGTH` and
`RECEIVE_BUFFER_LENGTH` are *class attributes* of `AjpConnection`; Python
does not place the enclosing class body's names in a method's scope, so
they are deliberately not module-level bindings. -/
def protocolModuleNames : List String :=
  ["socket", "BytesIO", "PROTOCOL_LOGGER", "AjpSendHeaders", "header_case",
   "lookup_status_by_code", "ATTRIBUTE", "AjpAttribute",
   "AjpPacketHeadersFromContainer", "AjpResponse", "unpack_as_string",
   "unpack_as_string_length", "unpack_bytes", "AjpConnection"]

/-- The local names of `AjpConnection.send_and_receive` (parameters and
assigned variables, per the source). -/
def sendAndReceiveLocalNames : List String :=
  ["self", "ajp_request", "attrs", "request_packet", "_prefix_code",
   "_resp_buffer", "packet", "_data", "_data_len", "ajp_resp"]

/-- The local names of `AjpConnection._parse`. -/
def parseLocalNames : List String :=
  ["self", "ajp_request", "prefix_code", "resp_buffer", "ajp_resp", "_data",
   "_resp_buffer", "_resp_content", "_prefix_code", "_magic", "_data_len",
   "status_code", "headers_sz", "response_headers", "header_name_len",
   "header_n", "header_v"]

/-- Python name resolution for a bare name in a method body: local scope,
then module globals, then builtins — a class attribute is reachable only
through `self.` or the class name, so it does not take part. -/
def pythonNameResolves (localNames : List String) (nm : String) : Bool :=
  localNames.contains nm || protocolModuleNames.contains nm ||
    pythonBuiltinNames.contains nm

/-- The value of the bare name `RESPONSE_HEADER_LENGTH` at the `recv` call
in `send_and_receive` (line 96): `none` means the lookup fails and the
reference raises `NameError`. -/
def recvLenInSendAndReceive : Option Nat :=
  if pythonNameResolves sendAndReceiveLocalNames "RESPONSE_HEADER_LENGTH"
  then some 5 else none

/-- The value of the bare name `RESPONSE_HEADER_LENGTH` at the `recv` call
in `_parse` (line 117). -/
def recvLenInParse : Option Nat :=
  if pythonNameResolves parseLocalNames "RESPONSE_HEADER_LENGTH"
  then some 5 else none

/-- `AjpConnection._parse`: identical to `models.AjpResponse.parse` except
that the header-read length is the bare name `RESPONSE_HEADER_LENGTH`. -/
def AjpConnection_parse (fuel : Nat) (sock : List Nat) (prefixCode : Int := 0)
    (respBuffer : Option (List Nat) := none) : Except PyErr AjpResponseModel :=
  parseLoop recvLenInParse fuel sock prefixCode respBuffer {}

/-- The `for packet in ajp_request.serialize_data_to_packet():` loop of
`send_and_receive`: while the last ack was `GET_BODY_CHUNK`, each packet is
sent and a packet header is read back via
`self._socket.recv(RESPONSE_HEADER_LENGTH)` — a bare-name reference — then
`recv(_data_len - 1)` fills the carried-over response buffer. -/
def sendDataLoop (packets : List (List Nat)) (prefixCode : Int)
    (respBuffer : Option (List Nat)) (sock : List Nat) :
    Except PyErr (Int × Option (List Nat) × List Nat) :=
  match packets with
  | [] => .ok (prefixCode, respBuffer, sock)
  | _packet :: rest =>
    if prefixCode = 6 then
      match recvLenInSendAndReceive with
      | none => .error .nameError
      | some k =>
        match unpackHHb (sock.take k) with
        | .error e => .error e
        | .ok (_magic, dataLen, p) =>
          if dataLen = 0 then .error .valueError
          else
            sendDataLoop rest p (some ((sock.drop k).take (dataLen - 1)))
              ((sock.drop k).drop (dataLen - 1))
    else sendDataLoop rest prefixCode respBuffer sock

/-- Lines 76–79 of `send_and_receive`: the single `attrs.append(...)` of a
`REQ_ATTRIBUTE` named `AJP_REMOTE_PORT` carrying
`str(self._socket.getsockname()[1])` — the request's attribute list is
mutated in place. -/
def withConnAttrs (localPort : Nat) (req : AjpForwardRequest) :
    AjpForwardRequest :=
  { req with
    attributes := req.attributes ++
      [ATTRIBUTE.mk AjpAttribute.REQ_ATTRIBUTE
        (AttrValue.pair (some (pyStr "AJP_REMOTE_PORT"))
          (some (pyStr (toString localPort))))] }

/-- `AjpConnection.send_and_receive`: append the port attribute, serialize
and send the forward request, run the body-upload loop, then `_parse`.
The first component of the result is the request's (mutated) attribute
list, which survives even when an exception propagates. -/
def send_and_receive (localPort : Nat) (req : AjpForwardRequest)
    (sock : List Nat) : List ATTRIBUTE × Except PyErr AjpResponseModel :=
  match serialize_forward_request (withConnAttrs localPort req) with
  | .error e => ((withConnAttrs localPort req).attributes, .error e)
  | .ok _request_packet =>
    match sendDataLoop
        (serialize_data_to_packet (withConnAttrs localPort req).direction
          (withConnAttrs localPort req).data_stream)
        6 none sock with
    | .error e => ((withConnAttrs localPort req).attributes, .error e)
    | .ok (pfx, buffer, sock2) =>
      ((withConnAttrs localPort req).attributes,
       parseLoop recvLenInParse (sock2.length + 2) sock2 pfx buffer {})

lemma parseLoop_noName (fuel : Nat) (sock : List Nat) (pfx : Int)
    (resp : AjpResponseModel) (h5 : pfx ≠ 5) :
    parseLoop none (fuel + 1) sock pfx none resp = .error .nameError := by
  rw [parseLoop]
  simp [h5]

/-- C3: whenever the serialized request itself is well-formed, every
`send_and_receive` call ends in `NameError`: a request with a body stream
reaches `recv(RESPONSE_HEADER_LENGTH)` in the upload loop after sending its
first chunk, and a bodyless request reaches the same bare name in the first
`_parse` iteration — `RESPONSE_HEADER_LENGTH` is a class attribute and the
bare name resolves in neither method. -/
theorem c3_send_and_receive_nameError :
    ∀ (localPort : Nat) (req : AjpForwardRequest) (sock : List Nat)
      (pkt : List Nat),
      serialize_forward_request (withConnAttrs localPort req) = .ok pkt →
      (send_and_receive localPort req sock).2 = .error .nameError := by
  intro localPort req sock pkt h
  unfold send_and_receive
  rw [h]
  cases hdp : serialize_data_to_packet (withConnAttrs localPort req).direction
      (withConnAttrs localPort req).data_stream with
  | nil =>
    simp only [sendDataLoop]
    exact parseLoop_noName (sock.length + 1) sock 6 {} (by decide)
  | cons p rest =>
    simp only [sendDataLoop]
    rfl

/-- Witness for C3 at the concrete `GET /index` request (which serializes
successfully) on an empty socket stream. -/
theorem c3_send_and_receive_nameError_witness :
    serialize_forward_request (withConnAttrs 12345 getIndexRequest) =
      .ok [18, 52, 0, 61, 2, 2, 0, 8, 72, 84, 84, 80, 47, 49, 46, 49, 0,
           0, 6, 47, 105, 110, 100, 101, 120, 0, 255, 255, 255, 255, 255,
           255, 0, 80, 0, 0, 0, 10, 0, 15, 65, 74, 80, 95, 82, 69, 77, 79,
           84, 69, 95, 80, 79, 82, 84, 0, 0, 5, 49, 50, 51, 52, 53, 0,
           255] ∧
    (send_and_receive 12345 getIndexRequest []).2 = .error .nameError := by
  refine ⟨by rfl, ?_⟩
  exact c3_send_and_receive_nameError 12345 getIndexRequest []
    [18, 52, 0, 61, 2, 2, 0, 8, 72, 84, 84, 80, 47, 49, 46, 49, 0,
     0, 6, 47, 105, 110, 100, 101, 120, 0, 255, 255, 255, 255, 255,
     255, 0, 80, 0, 0, 0, 10, 0, 15, 65, 74, 80, 95, 82, 69, 77, 79,
     84, 69, 95, 80, 79, 82, 84, 0, 0, 5, 49, 50, 51, 52, 53, 0,
     255] (by rfl)

/-- C4 counterexample: at a concrete call (`GET /index`, empty attribute
list, local port `12345`), the attribute list after `send_and_receive`
holds one synthesized attribute, not the two the claim asserts. -/
theorem c4_only_one_attribute_counterexample :
    ¬ ((send_and_receive 12345 getIndexRequest []).1.length =
        getIndexRequest.attributes.length + 2) := by
  intro h
  have h1 : (send_and_receive 12345 getIndexRequest []).1.length = 1 := by rfl
  have h2 : getIndexRequest.attributes.length = 0 := by rfl
  omega

/-- C4 (amended): `send_and_receive` appends exactly *one* synthesized
attribute to the request's attribute list before serialization — the
caller's local port, as a `REQ_ATTRIBUTE` named `AJP_REMOTE_PORT` whose
value is `str(port)`; no `AJP_LOCAL_ADDR` (or any other) attribute is
appended. -/
theorem c4_appends_exactly_remote_port :
    ∀ (localPort : Nat) (req : AjpForwardRequest) (sock : List Nat),
      (send_and_receive localPort req sock).1 =
        req.attributes ++
          [ATTRIBUTE.mk AjpAttribute.REQ_ATTRIBUTE
            (AttrValue.pair (some (pyStr "AJP_REMOTE_PORT"))
              (some (pyStr (toString localPort))))] := by
  intro localPort req sock
  unfold send_and_receive
  cases serialize_forward_request (withConnAttrs localPort req) with
  | error e => rfl
  | ok pkt =>
    cases sendDataLoop
        (serialize_data_to_packet (withConnAttrs localPort req).direction
          (withConnAttrs localPort req).data_stream) 6 none sock with
    | error e => rfl
    | ok t => rfl
